import Mathlib

/-!
# Upload and transcode pipeline of the tubely file-storage server

A shallow embedding of `handler_upload_video.go` and `handler_upload_thumbnail.go`.

* Go values of type `(T, error)` are pairs of a value and an optional error message.
* A Go run-time panic is an explicit outcome.
* The collaborators (identity service, record store, blob store, the two media
  tools, the random source, the local file system) are not part of the two
  files.  Every answer a collaborator gives during one invocation is an input of
  the model, and every call the handler makes to one is appended to a trace.
* Local storage is the list of paths that currently exist.
-/

set_option autoImplicit false

namespace Tubely

/-! ## Standard-library functions used by the handlers -/

/-- The alphabet of `base64.URLEncoding` (`encodeURL` in `encoding/base64`). -/
def encodeURL : List Char :=
  "ABCDEFGHIJKLMNOPQRSTUVWXYZabcdefghijklmnopqrstuvwxyz0123456789-_".data

/-- Table lookup `enc.encode[i]`.  Every index used by `Encode` is masked with `0x3F`,
so the default of `getD` is never returned. -/
def encodeChar (i : Nat) : Char := encodeURL.getD i 'A'

/-- The padding character of `base64.URLEncoding` (`StdPadding`). -/
def padChar : Char := '='

/-- The function `(*Encoding).Encode` of `encoding/base64` for `URLEncoding`: the main loop
consumes three source bytes per step and emits four characters, the tail handles
the one or two remaining bytes and pads. -/
def Encode : List UInt8 → List Char
  | [] => []
  | [a] =>
    let val := a.toNat <<< 16
    [encodeChar ((val >>> 18) &&& 0x3F), encodeChar ((val >>> 12) &&& 0x3F), padChar, padChar]
  | [a, b] =>
    let val := (a.toNat <<< 16) ||| (b.toNat <<< 8)
    [encodeChar ((val >>> 18) &&& 0x3F), encodeChar ((val >>> 12) &&& 0x3F),
      encodeChar ((val >>> 6) &&& 0x3F), padChar]
  | a :: b :: c :: rest =>
    let val := (a.toNat <<< 16) ||| (b.toNat <<< 8) ||| c.toNat
    encodeChar ((val >>> 18) &&& 0x3F) :: encodeChar ((val >>> 12) &&& 0x3F) ::
      encodeChar ((val >>> 6) &&& 0x3F) :: encodeChar (val &&& 0x3F) :: Encode rest

/-- The call `base64.URLEncoding.EncodeToString(src)`. -/
def EncodeToString (src : List UInt8) : String := String.mk (Encode src)

/-- Worker of `Split`: `cur` holds the characters of the current piece, newest first. -/
def splitAux (sep : Char) : List Char → List Char → List (List Char)
  | [], cur => [cur.reverse]
  | c :: cs, cur =>
    if c = sep then cur.reverse :: splitAux sep cs [] else splitAux sep cs (c :: cur)

/-- The call `strings.Split(s, sep)` for a separator of one character, the only kind the
handlers use (`"/"`): the pieces of `s` between consecutive separators. -/
def Split (s : String) (sep : Char) : List String :=
  (splitAux sep s.data []).map String.mk

/-! ## The media-type parser `mime.ParseMediaType` -/

/-- The function `unicode.IsSpace`: tab to carriage return, space, U+0085, U+00A0 and the
other code points with the White_Space property. -/
def IsSpace (c : Char) : Bool :=
  let n := c.toNat
  (0x09 ≤ n && n ≤ 0x0D) || n == 0x20 || n == 0x85 || n == 0xA0 || n == 0x1680 ||
    (0x2000 ≤ n && n ≤ 0x200A) || n == 0x2028 || n == 0x2029 || n == 0x202F ||
    n == 0x205F || n == 0x3000

/-- The call `strings.TrimSpace(s)`: `s` without leading and trailing white space. -/
def TrimSpace (s : String) : String :=
  String.mk ((s.data.dropWhile IsSpace).reverse.dropWhile IsSpace).reverse

/-- The parts of the library behind `mime.ParseMediaType` that are taken as given. -/
structure MimeLib where
  /-- The function `unicode.ToLower` (the Unicode case tables); `strings.ToLower` consults it
  only for a string that is not pure ASCII. -/
  unicodeToLower : Char → Char
  /-- The loop of `ParseMediaType` over a non-empty parameter list (`consumeMediaParam` and the
  duplicate check): given the header from its first `;` on, the error the loop ends with,
  if any. -/
  parseParams : String → Option String

/-- The call `strings.ToLower(s)`: an ASCII string has its letters `A-Z` lowered (the fast
path), any other string is mapped through `unicode.ToLower`. -/
def ToLower (lib : MimeLib) (s : String) : String :=
  if s.data.all (fun c => c.toNat < 0x80) then String.mk (s.data.map Char.toLower)
  else String.mk (s.data.map lib.unicodeToLower)

/-- The characters of the constant in `isTSpecial`: `( ) < > @ , ; :`, backslash, double
quote, `/ [ ] ? =`. -/
def tspecials : List Char :=
  ['(', ')', '<', '>', '@', ',', ';', ':', Char.ofNat 92, Char.ofNat 34, '/', '[', ']', '?', '=']

/-- The function `isTSpecial` of `mime/grammar.go`. -/
def isTSpecial (c : Char) : Bool := tspecials.contains c

/-- The function `isTokenChar` of `mime/grammar.go`. -/
def isTokenChar (c : Char) : Bool :=
  0x20 < c.toNat && c.toNat < 0x7f && !isTSpecial c

/-- The function `consumeToken` of `mime/mediatype.go`: the longest leading run of token
characters, and what follows it. -/
def consumeToken (v : String) : String × String :=
  (String.mk (v.data.takeWhile isTokenChar), String.mk (v.data.dropWhile isTokenChar))

/-- The function `checkMediaTypeDisposition` of `mime/mediatype.go`: the error, if any. -/
def checkMediaTypeDisposition (s : String) : Option String :=
  let (typ, rest) := consumeToken s
  if typ = "" then some "mime: no media type"
  else if rest = "" then none
  else
    match rest.data with
    | '/' :: tail =>
      let (subtype, rest) := consumeToken (String.mk tail)
      if subtype = "" then some "mime: expected token after slash"
      else if rest ≠ "" then some "mime: unexpected content after media subtype"
      else none
    | _ => some "mime: expected slash after first token"

/-- The function `mime.ParseMediaType`, as far as the handlers use it: the media type, or the
error.  `base` is the text before the first `;` (`strings.Cut`); the media type is `base`
lower-cased and trimmed.  The loop over the parameter list is entered only when something
follows `base`, and is then `lib.parseParams`. -/
def ParseMediaType (lib : MimeLib) (v : String) : Except String String :=
  let base := String.mk (v.data.takeWhile (fun c => c ≠ ';'))
  let mediatype := TrimSpace (ToLower lib base)
  match checkMediaTypeDisposition mediatype with
  | some err => .error err
  | none =>
    let rest := String.mk (v.data.dropWhile (fun c => c ≠ ';'))
    if rest = "" then .ok mediatype
    else
      match lib.parseParams rest with
      | some err => .error err
      | none => .ok mediatype

/-! ## Geometry classifier and transcode orchestrator -/

/-- The local type `streams` of `getVideoAspectRation`. -/
structure streams where
  Width : Int
  Height : Int
  deriving DecidableEq, Repr

/-- The local type `main` of `getVideoAspectRation`. -/
structure main where
  Streams : List streams
  deriving DecidableEq, Repr

/-- What running `ffprobe` and decoding its standard output yields. -/
inductive ProbeOutput where
  /-- The call `cmd.Run()` returned an error. -/
  | runFailed (e : String)
  /-- The call `json.Unmarshal` returned an error. -/
  | unmarshalFailed (e : String)
  /-- The output was decoded into `dimensions`. -/
  | decoded (dimensions : main)
  deriving DecidableEq, Repr

/-- Outcome of a Go function with results `(string, error)`: it returns the pair, or panics. -/
inductive Outcome where
  | ret (val : String) (err : Option String)
  | panic (msg : String)
  deriving DecidableEq, Repr

/-- The function `getVideoAspectRation`.  `probe` is what `ffprobe` yields for `filePath`.
Go integer division truncates toward zero (`Int.tdiv`); indexing `Streams[0]` of
an empty slice panics. -/
def getVideoAspectRation (probe : ProbeOutput) (_filePath : String) : Outcome :=
  match probe with
  | .runFailed e => .ret "" (some e)
  | .unmarshalFailed e => .ret "" (some e)
  | .decoded dimensions =>
    match dimensions.Streams with
    | [] => .panic "runtime error: index out of range [0] with length 0"
    | s0 :: _ =>
      if s0.Height.tdiv 9 = s0.Width.tdiv 16 then .ret "16:9" none
      else if s0.Height.tdiv 16 = s0.Width.tdiv 9 then .ret "9:16" none
      else .ret "other" none

/-- What running `ffmpeg` yields. -/
inductive FfmpegRun where
  /-- Exit status zero: the output file has been written. -/
  | success
  /-- The call `cmd.Run()` returned an error; `leftOutput` tells whether the tool left a
  (partly written) file at the output path. -/
  | failure (e : String) (leftOutput : Bool)
  deriving DecidableEq, Repr

/-- The function `processVideoForFastStart`, on local storage `files`: the returned pair and
the storage after the tool has run. -/
def processVideoForFastStart (ffmpeg : FfmpegRun) (filePath : String) (files : List String) :
    (String × Option String) × List String :=
  let outputPath := filePath ++ ".processing"
  match ffmpeg with
  | .failure e leftOutput => (("", some e), if leftOutput then outputPath :: files else files)
  | .success => ((outputPath, none), outputPath :: files)

/-! ## Data model and collaborators -/

/-- A `uuid.UUID`, as the 128-bit number it holds. -/
abbrev UUID := Nat

/-- Modelled from the spec: the record type `database.Video` is declared outside the two
handler files.  The fields are the ones of the Video Record of the data model, under the
names the handlers use (`UserID`, `ThumbnailURL`, `VideoURL`). -/
structure Video where
  ID : UUID
  UserID : UUID
  ThumbnailURL : Option String
  VideoURL : Option String
  deriving DecidableEq, Repr

/-- The fields of `apiConfig` the handlers read. -/
structure apiConfig where
  jwtSecret : String
  s3Bucket : String
  s3Region : String
  assetsRoot : String
  port : String
  deriving DecidableEq, Repr

/-- A call made by a handler that is observable outside the invocation.  The helpers
`respondWithError` and `respondWithJSON` and the stores behind `cfg.db` and `cfg.s3Client` are
declared outside the two handler files, so a call to one of them is recorded, with its
arguments, and not interpreted. -/
inductive Call where
  | respondWithError (code : Nat) (msg : String)
  | respondWithJSON (code : Nat) (payload : Option Video)
  | PutObject (Bucket Key ContentType : String)
  | GetVideo (id : UUID)
  | UpdateVideo (video : Video)
  /-- The handler goroutine panicked (after the deferred calls, the server drops it). -/
  | panic (msg : String)
  deriving DecidableEq, Repr

/-- The state an invocation acts on: local storage and the trace of calls, oldest first. -/
structure World where
  files : List String
  calls : List Call
  deriving DecidableEq, Repr

/-- Append one call to the trace. -/
def World.call (w : World) (c : Call) : World := { w with calls := w.calls ++ [c] }

/-- The call `os.Remove(name)`. -/
def World.remove (w : World) (name : String) : World :=
  { w with files := w.files.filter (fun p => p ≠ name) }

/-- The answers of the request parsing steps that both handlers perform first. -/
structure Request where
  /-- The call `uuid.Parse(r.PathValue("videoID"))`. -/
  videoID : Except String UUID
  /-- The call `auth.GetBearerToken(r.Header)`. -/
  bearerToken : Except String String
  /-- The call `auth.ValidateJWT(token, cfg.jwtSecret)`. -/
  userID : Except String UUID
  /-- The call `r.FormFile(field)`. -/
  formFile : Except String Unit
  /-- The call `mime.ParseMediaType(header.Header.Get("Content-Type"))`. -/
  mediaType : Except String String

/-- The answers of the collaborators during one invocation of `handlerUploadVideo`. -/
structure VideoEnv where
  /-- The call `os.CreateTemp("", "tubely-upload.mp4")`: the name of the new file. -/
  createTemp : Except String String
  /-- The call `io.Copy(f, file)`. -/
  copy : Except String Unit
  /-- The run of the transform tool. -/
  ffmpeg : FfmpegRun
  /-- The call `os.Open(processedPath)`. -/
  openProcessed : Except String Unit
  /-- The run of the probe tool. -/
  ffprobe : ProbeOutput
  /-- The 32 bytes `rand.Read(key)` fills in. -/
  key : List UInt8
  /-- The call `cfg.db.GetVideo(videoID)`. -/
  getVideo : Except String Video

/-- The answers of the collaborators during one invocation of `handlerUploadThumbnail`. -/
structure ThumbnailEnv where
  /-- The call `cfg.db.GetVideo(videoID)`. -/
  getVideo : Except String Video
  /-- The 32 bytes `rand.Read(key)` fills in. -/
  key : List UInt8
  /-- The function `filepath.Join` on two elements. -/
  join : String → String → String
  /-- The call `os.Create(path)`. -/
  create : Except String Unit
  /-- The call `io.Copy(new_file, file)`. -/
  copy : Except String Unit

/-! ## The two handlers -/

/-- The closure `prefix` of `handlerUploadVideo` (lines 96-105). -/
def prefixFor (aspect_ratio : String) : String :=
  if aspect_ratio = "16:9" then "landscape"
  else if aspect_ratio = "9:16" then "portrait"
  else "other"

/-- The expression `strings.Split(media_type, "/")[1]`; `none` is the index panic. -/
def file_extension (media_type : String) : Option String :=
  (Split media_type '/')[1]?

/-- The guard of line 60 of `handlerUploadVideo`. -/
def videoTypeRejected (media_type : String) : Bool :=
  media_type != "video/mp4"

/-- The guard of line 56 of `handlerUploadThumbnail`. -/
def thumbnailTypeRejected (media_type : String) : Bool :=
  media_type != "image/jpeg" && media_type != "image/png"

/-- Lines 109-113 of `handlerUploadVideo`: the object key. -/
def videoPath (aspect_ratio media_type : String) (key : List UInt8) : Option String :=
  match file_extension media_type with
  | none => none
  | some ext => some (prefixFor aspect_ratio ++ "/" ++ EncodeToString key ++ "." ++ ext)

/-- Lines 72-77 of `handlerUploadThumbnail`: the file name handed to `filepath.Join`. -/
def thumbnailFileName (media_type : String) (key : List UInt8) : Option String :=
  match file_extension media_type with
  | none => none
  | some ext => some (EncodeToString key ++ "." ++ ext)

/-- Lines 73-133 of `handlerUploadVideo`: what runs between the registration of the deferred
`os.Remove(f.Name())` and the function exit.  `name` is `f.Name()`. -/
def videoBody (cfg : apiConfig) (env : VideoEnv) (videoID : UUID) (media_type name : String)
    (w : World) : World :=
  match env.copy with
  | .error _ => w.call (.respondWithError 500 "Error saving file")
  | .ok _ =>
  let run := processVideoForFastStart env.ffmpeg name w.files
  let w := { w with files := run.2 }
  match run.1 with
  | (_, some _) => w.call (.respondWithError 500 "Error processing video")
  | (processedPath, none) =>
  -- lines 85-88: no return after the error response
  let w := match env.openProcessed with
    | .error _ => w.call (.respondWithError 500 "Error opening processed file")
    | .ok _ => w
  match getVideoAspectRation env.ffprobe processedPath with
  | .panic msg => w.call (.panic msg)
  | .ret aspect_ratio err =>
  -- lines 92-94: no return after the error response
  let w := match err with
    | some _ => w.call (.respondWithError 500 "Error getting aspect ratio")
    | none => w
  match videoPath aspect_ratio media_type env.key with
  | none => w.call (.panic "runtime error: index out of range [1] with length 1")
  | some path =>
  -- line 122: the result of PutObject is discarded
  let w := w.call (.PutObject cfg.s3Bucket path media_type)
  let w := w.call (.GetVideo videoID)
  match env.getVideo with
  | .error _ => w.call (.respondWithError 500 "Error getting video")
  | .ok video =>
  let url := "https://" ++ cfg.s3Bucket ++ ".s3." ++ cfg.s3Region ++ ".amazonaws.com/" ++ path
  let video := { video with VideoURL := some url }
  let w := w.call (.UpdateVideo video)
  w.call (.respondWithJSON 204 none)

/-- The method `handlerUploadVideo`. -/
def handlerUploadVideo (cfg : apiConfig) (r : Request) (env : VideoEnv) (w : World) : World :=
  match r.videoID with
  | .error _ => w.call (.respondWithError 400 "Invalid Video ID")
  | .ok videoID =>
  match r.bearerToken with
  | .error _ => w.call (.respondWithError 401 "Couldn't find JWT")
  | .ok _ =>
  match r.userID with
  | .error _ => w.call (.respondWithError 401 "Couldn't Validate JWT")
  | .ok _ =>
  match r.formFile with
  | .error _ => w.call (.respondWithError 400 "Unable to parse from file")
  | .ok _ =>
  match r.mediaType with
  | .error _ => w.call (.respondWithError 400 "Unable to parse Content-Type")
  | .ok media_type =>
  if videoTypeRejected media_type then
    w.call (.respondWithError 400 "Wrong media type for video")
  else
  match env.createTemp with
  | .error _ => w.call (.respondWithError 500 "Error creating file")
  | .ok name =>
  -- the temporary file exists from here on; `defer os.Remove(f.Name())` runs at every exit
  let w := { w with files := name :: w.files }
  (videoBody cfg env videoID media_type name w).remove name

/-- The method `handlerUploadThumbnail`. -/
def handlerUploadThumbnail (cfg : apiConfig) (r : Request) (env : ThumbnailEnv) (w : World) :
    World :=
  match r.videoID with
  | .error _ => w.call (.respondWithError 400 "Invalid ID")
  | .ok videoID =>
  match r.bearerToken with
  | .error _ => w.call (.respondWithError 401 "Couldn't find JWT")
  | .ok _ =>
  match r.userID with
  | .error _ => w.call (.respondWithError 401 "Couldn't validate JWT")
  | .ok userID =>
  match r.formFile with
  | .error _ => w.call (.respondWithError 400 "Unable to parse from file")
  | .ok _ =>
  match r.mediaType with
  | .error _ => w.call (.respondWithError 400 "Unable to parse Content-Type")
  | .ok media_type =>
  if thumbnailTypeRejected media_type then
    w.call (.respondWithError 400 "Wrong media type for thumbnail")
  else
  let w := w.call (.GetVideo videoID)
  match env.getVideo with
  | .error _ => w.call (.respondWithError 400 "Bad video ID")
  | .ok video =>
  if video.UserID ≠ userID then
    w.call (.respondWithError 401 "User does not own the video")
  else
  match thumbnailFileName media_type env.key with
  | none => w.call (.panic "runtime error: index out of range [1] with length 1")
  | some fileName =>
  let path := env.join cfg.assetsRoot fileName
  match env.create with
  | .error _ => w.call (.respondWithError 500 "Error creating file")
  | .ok _ =>
  let w := { w with files := path :: w.files }
  match env.copy with
  | .error _ => w.call (.respondWithError 500 "Error saving file")
  | .ok _ =>
  let thumbnail_url := "http://localhost:" ++ cfg.port ++ "/" ++ path
  let video := { video with ThumbnailURL := some thumbnail_url }
  let w := w.call (.UpdateVideo video)
  w.call (.respondWithJSON 200 (some video))

/-- The characters the opaque key may consist of: `A-Z`, `a-z`, `0-9`, `-`, `_` and the
padding character `=`. -/
def urlSafeChar (c : Char) : Bool :=
  ('A' ≤ c && c ≤ 'Z') || ('a' ≤ c && c ≤ 'z') || ('0' ≤ c && c ≤ '9') ||
    c == '-' || c == '_' || c == '='

/-! ## Sample inputs -/

/-- A server configuration. -/
def sampleConfig : apiConfig :=
  { jwtSecret := "secret", s3Bucket := "tubely", s3Region := "us-east-1",
    assetsRoot := "assets", port := "8091" }

/-- A video record owned by user 1. -/
def sampleVideo : Video := { ID := 7, UserID := 1, ThumbnailURL := none, VideoURL := none }

/-- A well-formed video upload for record 7, sent by user 1 (the owner). -/
def sampleVideoRequest : Request :=
  { videoID := .ok 7, bearerToken := .ok "token", userID := .ok 1, formFile := .ok (),
    mediaType := .ok "video/mp4" }

/-- A well-formed thumbnail upload for record 7, sent by user 1 (the owner). -/
def sampleThumbnailRequest : Request :=
  { videoID := .ok 7, bearerToken := .ok "token", userID := .ok 1, formFile := .ok (),
    mediaType := .ok "image/png" }

/-- Thirty-two zero bytes. -/
def sampleKey : List UInt8 := List.replicate 32 0

/-- An invocation of the video flow in which every collaborator succeeds and the probe
reports one 1920x1080 stream. -/
def sampleVideoEnv : VideoEnv :=
  { createTemp := .ok "/tmp/tubely-upload.mp4123", copy := .ok (), ffmpeg := .success,
    openProcessed := .ok (), ffprobe := .decoded ⟨[⟨1920, 1080⟩]⟩, key := sampleKey,
    getVideo := .ok sampleVideo }

/-- An invocation of the thumbnail flow in which every collaborator succeeds. -/
def sampleThumbnailEnv : ThumbnailEnv :=
  { getVideo := .ok sampleVideo, key := sampleKey,
    join := fun dir file => dir ++ "/" ++ file, create := .ok (), copy := .ok () }

/-- The sample video upload, sent by user 2, who does not own record 7. -/
def foreignVideoRequest : Request := { sampleVideoRequest with userID := .ok 2 }

/-- The sample thumbnail upload, sent by user 2, who does not own record 7. -/
def foreignThumbnailRequest : Request := { sampleThumbnailRequest with userID := .ok 2 }

/-- The sample video invocation with a probe tool that exits with failure. -/
def probeFailureEnv : VideoEnv := { sampleVideoEnv with ffprobe := .runFailed "exit status 1" }

/-- The sample video invocation with a processed file that cannot be opened. -/
def openFailureEnv : VideoEnv :=
  { sampleVideoEnv with openProcessed := .error "open: permission denied" }

/-- The sample video invocation with a probe output that lists no stream. -/
def noStreamsEnv : VideoEnv := { sampleVideoEnv with ffprobe := .decoded ⟨[]⟩ }

/-- The sample video invocation with a transform tool that exits with failure and leaves a
partly written output file. -/
def transcodeFailureEnv : VideoEnv :=
  { sampleVideoEnv with ffmpeg := .failure "exit status 1" true }

/-- The object key of the sample upload when the classification is `b`. -/
def sampleObjectKey (b : String) : String :=
  b ++ "/AAAAAAAAAAAAAAAAAAAAAAAAAAAAAAAAAAAAAAAAAAA=.mp4"

/-- The record the sample video upload writes when the classification is `b`. -/
def sampleUpdatedVideo (b : String) : Video :=
  { sampleVideo with
    VideoURL := some ("https://tubely.s3.us-east-1.amazonaws.com/" ++ sampleObjectKey b) }

/-- The request `r` when the uploaded part declares `Content-Type: declared`: line 50 of
`handlerUploadThumbnail` and line 54 of `handlerUploadVideo` hand that header value to
`mime.ParseMediaType`. -/
def declaredRequest (lib : MimeLib) (r : Request) (declared : String) : Request :=
  { r with mediaType := ParseMediaType lib declared }

/-- Stand-ins for the library parts not modelled: no case mapping outside ASCII, and a
parameter loop that fails on every parameter list.  Neither is consulted for an ASCII
header without a `;`. -/
def strictMimeLib : MimeLib :=
  { unicodeToLower := fun c => c, parseParams := fun _ => some "mime: invalid media parameter" }

/-- The record the sample thumbnail upload writes. -/
def sampleThumbnailVideo : Video :=
  { sampleVideo with
    ThumbnailURL := some
      "http://localhost:8091/assets/AAAAAAAAAAAAAAAAAAAAAAAAAAAAAAAAAAAAAAAAAAA=.png" }

/-- A world with empty local storage and an empty trace. -/
def emptyWorld : World := { files := [], calls := [] }

/-! ## Geometry classification -/

/-- C1: for every pair of integers `width`, `height` reported for the first stream,
`getVideoAspectRation` returns "16:9" when `height/9 == width/16` under (truncating)
integer division, otherwise "9:16" when `height/16 == width/9`, otherwise "other", with a
nil error; the result depends on nothing else.  In particular 1920x1080 is "16:9",
1080x1920 is "9:16" and 1000x1000 is "other". -/
theorem getVideoAspectRation_classification :
    (∀ (width height : Int) (rest : List streams) (filePath : String),
      getVideoAspectRation (.decoded ⟨⟨width, height⟩ :: rest⟩) filePath =
        .ret (if height.tdiv 9 = width.tdiv 16 then "16:9"
              else if height.tdiv 16 = width.tdiv 9 then "9:16" else "other") none) ∧
    (∀ filePath, getVideoAspectRation (.decoded ⟨[⟨1920, 1080⟩]⟩) filePath = .ret "16:9" none) ∧
    (∀ filePath, getVideoAspectRation (.decoded ⟨[⟨1080, 1920⟩]⟩) filePath = .ret "9:16" none) ∧
    (∀ filePath, getVideoAspectRation (.decoded ⟨[⟨1000, 1000⟩]⟩) filePath = .ret "other" none) := by
  refine ⟨?_, ?_, ?_, ?_⟩
  · intro width height rest filePath
    simp only [getVideoAspectRation]
    split
    · rfl
    · split <;> rfl
  · intro filePath; simp [getVideoAspectRation]; decide
  · intro filePath; simp [getVideoAspectRation]; decide
  · intro filePath; simp [getVideoAspectRation]; decide

/-- C4 (the code departs from the claim): when the probe output decodes to an empty stream
list, `getVideoAspectRation` does not return an error; it panics on `Streams[0]`, and the
handler ends with that panic instead of an error response. -/
theorem getVideoAspectRation_empty_streams_panics :
    (∀ filePath, getVideoAspectRation (.decoded ⟨[]⟩) filePath =
      .panic "runtime error: index out of range [0] with length 0") ∧
    (∀ filePath val err, getVideoAspectRation (.decoded ⟨[]⟩) filePath ≠ .ret val err) ∧
    (handlerUploadVideo sampleConfig sampleVideoRequest noStreamsEnv emptyWorld).calls =
      [.panic "runtime error: index out of range [0] with length 0"] := by
  refine ⟨?_, ?_, ?_⟩
  · intro filePath; simp [getVideoAspectRation]
  · intro filePath val err; simp [getVideoAspectRation]
  · decide

/-- C10: for every integer `k ≥ 1` a frame of exactly 16k x 9k is classified "16:9" and a
frame of exactly 9k x 16k is classified "9:16"; on the latter the 16:9 test, which is checked
first, does not fire. -/
theorem getVideoAspectRation_exact_ratios (k : Int) (hk : 1 ≤ k) (rest : List streams)
    (filePath : String) :
    getVideoAspectRation (.decoded ⟨⟨16 * k, 9 * k⟩ :: rest⟩) filePath = .ret "16:9" none ∧
    getVideoAspectRation (.decoded ⟨⟨9 * k, 16 * k⟩ :: rest⟩) filePath = .ret "9:16" none ∧
    (16 * k).tdiv 9 ≠ (9 * k).tdiv 16 := by
  have h1 : (9 * k).tdiv 9 = (16 * k).tdiv 16 := by
    rw [Int.tdiv_eq_ediv (by omega) (by omega), Int.tdiv_eq_ediv (by omega) (by omega)]
    omega
  have h2 : (16 * k).tdiv 9 ≠ (9 * k).tdiv 16 := by
    rw [Int.tdiv_eq_ediv (by omega) (by omega), Int.tdiv_eq_ediv (by omega) (by omega)]
    omega
  have h3 : (16 * k).tdiv 16 = (9 * k).tdiv 9 := h1.symm
  refine ⟨?_, ?_, h2⟩
  · simp [getVideoAspectRation, h1]
  · simp [getVideoAspectRation, h2, h3]

/-- Witness of C10 at `k = 120`: 1920x1080 and 1080x1920. -/
theorem getVideoAspectRation_exact_ratios_witness :
    getVideoAspectRation (.decoded ⟨⟨16 * 120, 9 * 120⟩ :: []⟩) "clip.mp4" = .ret "16:9" none ∧
    getVideoAspectRation (.decoded ⟨⟨9 * 120, 16 * 120⟩ :: []⟩) "clip.mp4" = .ret "9:16" none ∧
    ((16 : Int) * 120).tdiv 9 ≠ ((9 : Int) * 120).tdiv 16 :=
  getVideoAspectRation_exact_ratios 120 (by decide) [] "clip.mp4"

/-! ## Opaque key and storage path -/

/-- Every entry of the URL alphabet is a URL-safe character, and so is the padding. -/
theorem encodeURL_urlSafe : ∀ c ∈ padChar :: encodeURL, urlSafeChar c = true := by
  decide

/-- A masked index selects an entry of the alphabet. -/
theorem encodeChar_mem (n : Nat) : encodeChar (n &&& 0x3F) ∈ encodeURL := by
  have hlt : n &&& 0x3F < encodeURL.length := by
    have h : n &&& 0x3F ≤ 0x3F := Nat.and_le_right
    have hl : encodeURL.length = 64 := by decide
    omega
  unfold encodeChar
  rw [List.getD_eq_getElem _ _ hlt]
  exact List.getElem_mem hlt

/-- Each character `Encode` emits is an alphabet entry or the padding character. -/
theorem Encode_mem (src : List UInt8) : ∀ c ∈ Encode src, c ∈ padChar :: encodeURL := by
  induction src using Encode.induct with
  | case1 => simp [Encode]
  | case2 a =>
    intro c hc
    simp only [Encode, List.mem_cons, List.mem_singleton, List.not_mem_nil, or_false] at hc
    rcases hc with h | h | h | h <;> subst h <;>
      first
        | exact List.mem_cons_self _ _
        | exact List.mem_cons_of_mem _ (encodeChar_mem _)
  | case3 a b =>
    intro c hc
    simp only [Encode, List.mem_cons, List.mem_singleton, List.not_mem_nil, or_false] at hc
    rcases hc with h | h | h | h <;> subst h <;>
      first
        | exact List.mem_cons_self _ _
        | exact List.mem_cons_of_mem _ (encodeChar_mem _)
  | case4 a b c rest ih =>
    intro x hx
    simp only [Encode, List.mem_cons] at hx
    rcases hx with h | h | h | h | h
    · subst h; exact List.mem_cons_of_mem _ (encodeChar_mem _)
    · subst h; exact List.mem_cons_of_mem _ (encodeChar_mem _)
    · subst h; exact List.mem_cons_of_mem _ (encodeChar_mem _)
    · subst h; exact List.mem_cons_of_mem _ (encodeChar_mem _)
    · exact ih x h

/-- The length of the encoding is `EncodedLen`: four characters per started group of three
bytes. -/
theorem Encode_length (src : List UInt8) : (Encode src).length = (src.length + 2) / 3 * 4 := by
  induction src using Encode.induct with
  | case1 => simp [Encode]
  | case2 a => simp [Encode]
  | case3 a b => simp [Encode]
  | case4 a b c rest ih =>
    simp only [Encode, List.length_cons, ih]
    omega

/-- The subtype of each accepted content type. -/
theorem file_extension_accepted :
    file_extension "video/mp4" = some "mp4" ∧ file_extension "image/png" = some "png" ∧
    file_extension "image/jpeg" = some "jpeg" := by
  decide

/-- The three prefixes contain no slash. -/
theorem prefixFor_count_slash (aspect_ratio : String) :
    (prefixFor aspect_ratio).data.count '/' = 0 := by
  unfold prefixFor
  split
  · decide
  · split <;> decide

/-- C9: for every sequence of exactly 32 bytes, the key `base64.URLEncoding` produces has
exactly 44 characters, each one of `A-Z`, `a-z`, `0-9`, `-`, `_` or the padding `=`; it
contains neither `/` nor `+`, and the composed video object key contains exactly one `/`. -/
theorem EncodeToString_urlsafe (key : List UInt8) (hlen : key.length = 32) :
    (EncodeToString key).length = 44 ∧
    (∀ c ∈ (EncodeToString key).data, urlSafeChar c = true) ∧
    '/' ∉ (EncodeToString key).data ∧ '+' ∉ (EncodeToString key).data ∧
    ∀ aspect_ratio, ∃ path, videoPath aspect_ratio "video/mp4" key = some path ∧
      path.data.count '/' = 1 := by
  have hsafe : ∀ c ∈ (EncodeToString key).data, urlSafeChar c = true := fun c hc =>
    encodeURL_urlSafe c (Encode_mem key c hc)
  have hslash : '/' ∉ (EncodeToString key).data := fun h =>
    absurd (hsafe _ h) (by decide)
  have hplus : '+' ∉ (EncodeToString key).data := fun h =>
    absurd (hsafe _ h) (by decide)
  refine ⟨?_, hsafe, hslash, hplus, ?_⟩
  · simp [EncodeToString, Encode_length, hlen]
  · intro aspect_ratio
    refine ⟨prefixFor aspect_ratio ++ "/" ++ EncodeToString key ++ "." ++ "mp4", ?_, ?_⟩
    · simp [videoPath, file_extension_accepted.1]
    · have h0 : (EncodeToString key).data.count '/' = 0 := List.count_eq_zero.mpr hslash
      have h1 : ("/" : String).data.count '/' = 1 := by decide
      have h2 : ("." : String).data.count '/' = 0 := by decide
      have h3 : ("mp4" : String).data.count '/' = 0 := by decide
      simp only [String.data_append, List.count_append, prefixFor_count_slash, h0, h1, h2, h3]

/-- Witness of C9 at thirty-two zero bytes. -/
theorem EncodeToString_urlsafe_witness :
    sampleKey.length = 32 ∧ (EncodeToString sampleKey).length = 44 ∧
    (∀ c ∈ (EncodeToString sampleKey).data, urlSafeChar c = true) ∧
    '/' ∉ (EncodeToString sampleKey).data ∧ '+' ∉ (EncodeToString sampleKey).data ∧
    ∀ aspect_ratio, ∃ path, videoPath aspect_ratio "video/mp4" sampleKey = some path ∧
      path.data.count '/' = 1 :=
  ⟨by decide, EncodeToString_urlsafe sampleKey (by decide)⟩

/-- C6: the video object key is `prefix(b) + "/" + enc(k) + "." + ext` with `ext = "mp4"`,
where the prefix of "16:9" is "landscape", of "9:16" is "portrait" and of anything else is
"other"; the thumbnail file name is `enc(k) + "." + ext` with "png" for "image/png" and
"jpeg" for "image/jpeg"; taking the subtype never fails for an accepted type.  The last two
parts state the same on the handlers: the key handed to `PutObject` and the file created
under the assets root. -/
theorem storage_path_composition :
    (∀ (b : String) (k : List UInt8),
      videoPath b "video/mp4" k =
        some (prefixFor b ++ "/" ++ EncodeToString k ++ "." ++ "mp4")) ∧
    (prefixFor "16:9" = "landscape" ∧ prefixFor "9:16" = "portrait" ∧
      ∀ b, b ≠ "16:9" → b ≠ "9:16" → prefixFor b = "other") ∧
    (∀ k : List UInt8,
      thumbnailFileName "image/png" k = some (EncodeToString k ++ "." ++ "png") ∧
      thumbnailFileName "image/jpeg" k = some (EncodeToString k ++ "." ++ "jpeg")) ∧
    (∀ media_type, videoTypeRejected media_type = false ∨
        thumbnailTypeRejected media_type = false → ∃ ext, file_extension media_type = some ext) ∧
    (∀ (cfg : apiConfig) (r : Request) (env : VideoEnv) (w : World) (videoID userID : UUID)
        (token name b : String) (e : Option String),
      r.videoID = .ok videoID → r.bearerToken = .ok token → r.userID = .ok userID →
      r.formFile = .ok () → r.mediaType = .ok "video/mp4" →
      env.createTemp = .ok name → env.copy = .ok () → env.ffmpeg = .success →
      getVideoAspectRation env.ffprobe (name ++ ".processing") = .ret b e →
      Call.PutObject cfg.s3Bucket
          (prefixFor b ++ "/" ++ EncodeToString env.key ++ "." ++ "mp4") "video/mp4" ∈
        (handlerUploadVideo cfg r env w).calls) ∧
    (∀ (cfg : apiConfig) (r : Request) (env : ThumbnailEnv) (w : World) (videoID userID : UUID)
        (token media_type ext : String) (video : Video),
      r.videoID = .ok videoID → r.bearerToken = .ok token → r.userID = .ok userID →
      r.formFile = .ok () → r.mediaType = .ok media_type →
      (media_type = "image/png" ∧ ext = "png" ∨ media_type = "image/jpeg" ∧ ext = "jpeg") →
      env.getVideo = .ok video → video.UserID = userID → env.create = .ok () →
      env.join cfg.assetsRoot (EncodeToString env.key ++ "." ++ ext) ∈
        (handlerUploadThumbnail cfg r env w).files) := by
  have hmp4 := file_extension_accepted.1
  have hpng := file_extension_accepted.2.1
  have hjpeg := file_extension_accepted.2.2
  refine ⟨?_, ⟨by decide, by decide, ?_⟩, ?_, ?_, ?_, ?_⟩
  · intro b k
    simp [videoPath, hmp4]
  · intro b h1 h2
    simp [prefixFor, h1, h2]
  · intro k
    simp [thumbnailFileName, hpng, hjpeg]
  · intro media_type h
    rcases h with h | h
    · have hm : media_type = "video/mp4" := by simpa [videoTypeRejected] using h
      exact ⟨"mp4", by rw [hm]; exact hmp4⟩
    · have hm : media_type = "image/jpeg" ∨ media_type = "image/png" := by
        simp only [thumbnailTypeRejected, Bool.and_eq_false_imp, bne_iff_ne, ne_eq,
          bne_eq_false_iff_eq] at h
        by_cases hj : media_type = "image/jpeg"
        · exact Or.inl hj
        · exact Or.inr (h hj)
      rcases hm with hm | hm
      · exact ⟨"jpeg", by rw [hm]; exact hjpeg⟩
      · exact ⟨"png", by rw [hm]; exact hpng⟩
  · intro cfg r env w videoID userID token name b e h1 h2 h3 h4 h5 h6 h7 h8 h9
    have hv : videoTypeRejected "video/mp4" = false := by decide
    simp only [handlerUploadVideo, h1, h2, h3, h4, h5, h6, hv, videoBody, h7, h8,
      processVideoForFastStart, h9, videoPath, hmp4, World.remove, World.call]
    cases env.openProcessed <;> cases e <;> cases env.getVideo <;> simp
  · intro cfg r env w videoID userID token media_type ext video h1 h2 h3 h4 h5 hm h6 h7 h8
    rcases hm with ⟨hm, hx⟩ | ⟨hm, hx⟩
    · subst hm hx
      have hv : thumbnailTypeRejected "image/png" = false := by decide
      simp only [handlerUploadThumbnail, h1, h2, h3, h4, h5, h6, h7, h8, hv, thumbnailFileName,
        hpng, World.call]
      cases env.copy <;> simp
    · subst hm hx
      have hv : thumbnailTypeRejected "image/jpeg" = false := by decide
      simp only [handlerUploadThumbnail, h1, h2, h3, h4, h5, h6, h7, h8, hv, thumbnailFileName,
        hjpeg, World.call]
      cases env.copy <;> simp

/-- Witness of C6: the sample video and thumbnail uploads reach the blob store and the
assets directory under the composed names. -/
theorem storage_path_composition_witness :
    Call.PutObject sampleConfig.s3Bucket
        (prefixFor "16:9" ++ "/" ++ EncodeToString sampleVideoEnv.key ++ "." ++ "mp4")
        "video/mp4" ∈
      (handlerUploadVideo sampleConfig sampleVideoRequest sampleVideoEnv emptyWorld).calls ∧
    sampleThumbnailEnv.join sampleConfig.assetsRoot
        (EncodeToString sampleThumbnailEnv.key ++ "." ++ "png") ∈
      (handlerUploadThumbnail sampleConfig sampleThumbnailRequest sampleThumbnailEnv
        emptyWorld).files ∧
    (∃ ext, file_extension "image/jpeg" = some ext) :=
  ⟨storage_path_composition.2.2.2.2.1 sampleConfig sampleVideoRequest sampleVideoEnv emptyWorld
      7 1 "token" "/tmp/tubely-upload.mp4123" "16:9" none rfl rfl rfl rfl rfl rfl rfl rfl
      (by decide),
    storage_path_composition.2.2.2.2.2 sampleConfig sampleThumbnailRequest sampleThumbnailEnv
      emptyWorld 7 1 "token" "image/png" "png" sampleVideo rfl rfl rfl rfl rfl
      (Or.inl ⟨rfl, rfl⟩) rfl rfl rfl,
    storage_path_composition.2.2.2.1 "image/jpeg" (Or.inr (by decide))⟩

/-! ## Media validation -/

/-- The guard of the thumbnail flow lets exactly the two image types through. -/
theorem thumbnailTypeRejected_eq_false (media_type : String) :
    thumbnailTypeRejected media_type = false ↔
      media_type = "image/jpeg" ∨ media_type = "image/png" := by
  simp only [thumbnailTypeRejected, Bool.and_eq_false_imp, bne_iff_ne, ne_eq,
    bne_eq_false_iff_eq]
  constructor
  · intro h
    by_cases hj : media_type = "image/jpeg"
    · exact Or.inl hj
    · exact Or.inr (h hj)
  · rintro (h | h) hj
    · exact absurd h hj
    · exact h

/-- The guard of the video flow lets exactly "video/mp4" through. -/
theorem videoTypeRejected_eq_false (media_type : String) :
    videoTypeRejected media_type = false ↔ media_type = "video/mp4" := by
  simp [videoTypeRejected]

/-- Whatever `videoBody` does, its first new call is not a 400 response. -/
theorem videoBody_calls_ne (cfg : apiConfig) (env : VideoEnv) (videoID : UUID)
    (media_type name msg : String) (w : World) (calls : List Call) (hw : w.calls = calls) :
    (videoBody cfg env videoID media_type name w).calls ≠
      calls ++ [Call.respondWithError 400 msg] := by
  subst hw
  cases hc : env.copy with
  | error _ => simp [videoBody, hc, World.call]
  | ok _ =>
    cases hf : env.ffmpeg with
    | failure e l => simp [videoBody, hc, hf, processVideoForFastStart, World.call]
    | success =>
      cases hp : getVideoAspectRation env.ffprobe (name ++ ".processing") with
      | panic m =>
        cases ho : env.openProcessed <;>
          simp [videoBody, hc, hf, ho, hp, processVideoForFastStart, World.call]
      | ret a err =>
        cases ho : env.openProcessed <;> cases err <;>
          cases hv : videoPath a media_type env.key <;> cases hg : env.getVideo <;>
          simp [videoBody, hc, hf, ho, hp, hv, hg, processVideoForFastStart, World.call]

/-- What `mime.ParseMediaType` does to the declared string before the handlers compare it:
upper case is lowered, surrounding space is trimmed, and an accepted parameter list is
dropped.  The first two hold whatever the library parts taken as given do. -/
theorem ParseMediaType_normalises (lib : MimeLib) :
    ParseMediaType lib "IMAGE/PNG" = .ok "image/png" ∧
    ParseMediaType lib " Image/Jpeg " = .ok "image/jpeg" ∧
    ParseMediaType lib "VIDEO/MP4" = .ok "video/mp4" ∧
    (lib.parseParams "; charset=binary" = none →
      ParseMediaType lib "IMAGE/PNG; charset=binary" = .ok "image/png") := by
  refine ⟨rfl, rfl, rfl, ?_⟩
  intro h
  have hrest : String.mk (("IMAGE/PNG; charset=binary" : String).data.dropWhile
      (fun c => c ≠ ';')) = "; charset=binary" := by decide
  have hbase : checkMediaTypeDisposition (TrimSpace (ToLower lib (String.mk
      (("IMAGE/PNG; charset=binary" : String).data.takeWhile (fun c => c ≠ ';'))))) = none := rfl
  have hmt : TrimSpace (ToLower lib (String.mk
      (("IMAGE/PNG; charset=binary" : String).data.takeWhile (fun c => c ≠ ';')))) =
      "image/png" := rfl
  simp only [ParseMediaType, hbase, hrest, h, hmt]
  rfl

/-- The thumbnail flow ends as a single 400 response exactly when the parsed media type is
refused by the guard, and the message is then the one of the guard. -/
theorem handlerUploadThumbnail_rejected_iff (cfg : apiConfig) (r : Request)
    (env : ThumbnailEnv) (w : World) (videoID userID : UUID) (token media_type msg : String)
    (h1 : r.videoID = .ok videoID) (h2 : r.bearerToken = .ok token)
    (h3 : r.userID = .ok userID) (h4 : r.formFile = .ok ())
    (h5 : r.mediaType = .ok media_type) :
    handlerUploadThumbnail cfg r env w =
        { files := w.files, calls := w.calls ++ [.respondWithError 400 msg] } ↔
      thumbnailTypeRejected media_type = true ∧ msg = "Wrong media type for thumbnail" := by
  cases hrej : thumbnailTypeRejected media_type with
  | true =>
    simp only [handlerUploadThumbnail, h1, h2, h3, h4, h5, hrej, World.call, if_true,
      true_and, World.mk.injEq, List.append_cancel_left_eq, List.cons.injEq,
      Call.respondWithError.injEq, and_true]
    exact eq_comm
  | false =>
    have hext : ∃ ext, file_extension media_type = some ext := by
      rcases (thumbnailTypeRejected_eq_false media_type).mp hrej with hm | hm
      · exact ⟨"jpeg", by rw [hm]; exact file_extension_accepted.2.2⟩
      · exact ⟨"png", by rw [hm]; exact file_extension_accepted.2.1⟩
    obtain ⟨ext, hext⟩ := hext
    simp only [handlerUploadThumbnail, h1, h2, h3, h4, h5, hrej, thumbnailFileName, hext,
      World.call]
    cases env.getVideo with
    | error _ => simp
    | ok video =>
      by_cases ho : video.UserID = userID <;> cases env.create <;> cases env.copy <;>
        simp [ho]

/-- The video flow ends as a single 400 response exactly when the parsed media type is refused
by the guard, and the message is then the one of the guard. -/
theorem handlerUploadVideo_rejected_iff (cfg : apiConfig) (r : Request)
    (env : VideoEnv) (w : World) (videoID userID : UUID) (token media_type msg : String)
    (h1 : r.videoID = .ok videoID) (h2 : r.bearerToken = .ok token)
    (h3 : r.userID = .ok userID) (h4 : r.formFile = .ok ())
    (h5 : r.mediaType = .ok media_type) :
    handlerUploadVideo cfg r env w =
        { files := w.files, calls := w.calls ++ [.respondWithError 400 msg] } ↔
      videoTypeRejected media_type = true ∧ msg = "Wrong media type for video" := by
  cases hrej : videoTypeRejected media_type with
  | true =>
    simp only [handlerUploadVideo, h1, h2, h3, h4, h5, hrej, World.call, if_true,
      true_and, World.mk.injEq, List.append_cancel_left_eq, List.cons.injEq,
      Call.respondWithError.injEq, and_true]
    exact eq_comm
  | false =>
    simp only [handlerUploadVideo, h1, h2, h3, h4, h5, hrej]
    cases env.createTemp with
    | error _ => simp [World.call]
    | ok name =>
      have hne := videoBody_calls_ne cfg env videoID media_type name msg
        { files := name :: w.files, calls := w.calls } w.calls rfl
      simp only [World.remove, Bool.false_eq_true, if_false, false_and, iff_false]
      intro h
      exact hne (congrArg World.calls h)

/-- C5 (amended): validation is an exact match, against a fixed allow-list per asset kind, of
the media type `mime.ParseMediaType` extracts from the declared content type.  For every
declared string of a request that reaches the validation step, the thumbnail flow passes if
and only if the string parses to exactly "image/jpeg" or "image/png", and the video flow if
and only if it parses to exactly "video/mp4".  In every other case the whole invocation is one
400 response ("Unable to parse Content-Type" when the parse fails, "Wrong media type ..."
when the parsed type is not on the list): local storage is untouched, no file is created, no
blob is put and no record is updated. -/
theorem media_validation_of_parsed_type (lib : MimeLib) (cfg : apiConfig) (r : Request)
    (venv : VideoEnv) (tenv : ThumbnailEnv) (w : World) (videoID userID : UUID)
    (token declared : String)
    (h1 : r.videoID = .ok videoID) (h2 : r.bearerToken = .ok token)
    (h3 : r.userID = .ok userID) (h4 : r.formFile = .ok ())
    (h5 : r.mediaType = ParseMediaType lib declared) :
    (∀ mt, thumbnailTypeRejected mt = false ↔ mt = "image/jpeg" ∨ mt = "image/png") ∧
    (∀ mt, videoTypeRejected mt = false ↔ mt = "video/mp4") ∧
    ((handlerUploadThumbnail cfg r tenv w =
          { files := w.files,
            calls := w.calls ++ [.respondWithError 400 "Unable to parse Content-Type"] } ∨
        handlerUploadThumbnail cfg r tenv w =
          { files := w.files,
            calls := w.calls ++ [.respondWithError 400 "Wrong media type for thumbnail"] }) ↔
      ¬ (ParseMediaType lib declared = .ok "image/jpeg" ∨
          ParseMediaType lib declared = .ok "image/png")) ∧
    ((handlerUploadVideo cfg r venv w =
          { files := w.files,
            calls := w.calls ++ [.respondWithError 400 "Unable to parse Content-Type"] } ∨
        handlerUploadVideo cfg r venv w =
          { files := w.files,
            calls := w.calls ++ [.respondWithError 400 "Wrong media type for video"] }) ↔
      ParseMediaType lib declared ≠ .ok "video/mp4") ∧
    (∀ mt, ParseMediaType lib declared = .ok mt →
      (handlerUploadThumbnail cfg r tenv w =
          { files := w.files,
            calls := w.calls ++ [.respondWithError 400 "Wrong media type for thumbnail"] } ↔
        ¬ (mt = "image/jpeg" ∨ mt = "image/png")) ∧
      (handlerUploadVideo cfg r venv w =
          { files := w.files,
            calls := w.calls ++ [.respondWithError 400 "Wrong media type for video"] } ↔
        mt ≠ "video/mp4")) ∧
    (∀ e, ParseMediaType lib declared = .error e →
      handlerUploadThumbnail cfg r tenv w =
          { files := w.files,
            calls := w.calls ++ [.respondWithError 400 "Unable to parse Content-Type"] } ∧
      handlerUploadVideo cfg r venv w =
          { files := w.files,
            calls := w.calls ++ [.respondWithError 400 "Unable to parse Content-Type"] }) := by
  have hTrej : ∀ mt, thumbnailTypeRejected mt = true ↔ ¬ (mt = "image/jpeg" ∨ mt = "image/png") := by
    intro mt
    rw [← thumbnailTypeRejected_eq_false]
    cases thumbnailTypeRejected mt <;> simp
  have hVrej : ∀ mt, videoTypeRejected mt = true ↔ mt ≠ "video/mp4" := by
    intro mt
    rw [ne_eq, ← videoTypeRejected_eq_false]
    cases videoTypeRejected mt <;> simp
  have hmsgT : ("Unable to parse Content-Type" : String) ≠ "Wrong media type for thumbnail" := by
    decide
  have hmsgV : ("Unable to parse Content-Type" : String) ≠ "Wrong media type for video" := by
    decide
  refine ⟨thumbnailTypeRejected_eq_false, videoTypeRejected_eq_false, ?_⟩
  cases hp : ParseMediaType lib declared with
  | error e =>
    rw [hp] at h5
    have hT : handlerUploadThumbnail cfg r tenv w =
        { files := w.files,
          calls := w.calls ++ [.respondWithError 400 "Unable to parse Content-Type"] } := by
      simp [handlerUploadThumbnail, h1, h2, h3, h4, h5, World.call]
    have hV : handlerUploadVideo cfg r venv w =
        { files := w.files,
          calls := w.calls ++ [.respondWithError 400 "Unable to parse Content-Type"] } := by
      simp [handlerUploadVideo, h1, h2, h3, h4, h5, World.call]
    refine ⟨?_, ?_, ?_, ?_⟩
    · simp [hT]
    · simp [hV]
    · intro mt hmt; cases hmt
    · intro e2 _; exact ⟨hT, hV⟩
  | ok mt =>
    rw [hp] at h5
    have hT := fun msg =>
      handlerUploadThumbnail_rejected_iff cfg r tenv w videoID userID token mt msg h1 h2 h3 h4 h5
    have hV := fun msg =>
      handlerUploadVideo_rejected_iff cfg r venv w videoID userID token mt msg h1 h2 h3 h4 h5
    refine ⟨?_, ?_, ?_, ?_⟩
    · rw [hT, hT]
      simp only [hmsgT, and_false, and_true, false_or, Except.ok.injEq]
      exact hTrej mt
    · rw [hV, hV]
      simp only [hmsgV, and_false, and_true, false_or, ne_eq, Except.ok.injEq]
      exact hVrej mt
    · intro mt2 hmt
      cases hmt
      refine ⟨?_, ?_⟩
      · rw [hT]; simp only [and_true]; exact hTrej mt
      · rw [hV]; simp only [and_true]; exact hVrej mt
    · intro e he; cases he

/-- Witness of C5 (amended): a thumbnail upload and a video upload whose part declares
"image/gif". -/
theorem media_validation_of_parsed_type_witness :
    (declaredRequest strictMimeLib sampleThumbnailRequest "image/gif").mediaType =
      ParseMediaType strictMimeLib "image/gif" ∧
    handlerUploadThumbnail sampleConfig
        (declaredRequest strictMimeLib sampleThumbnailRequest "image/gif")
        sampleThumbnailEnv emptyWorld =
      { files := emptyWorld.files,
        calls := emptyWorld.calls ++
          [.respondWithError 400 "Wrong media type for thumbnail"] } ∧
    handlerUploadVideo sampleConfig
        (declaredRequest strictMimeLib sampleThumbnailRequest "image/gif")
        sampleVideoEnv emptyWorld =
      { files := emptyWorld.files,
        calls := emptyWorld.calls ++ [.respondWithError 400 "Wrong media type for video"] } :=
  have h := media_validation_of_parsed_type strictMimeLib sampleConfig
    (declaredRequest strictMimeLib sampleThumbnailRequest "image/gif")
    sampleVideoEnv sampleThumbnailEnv emptyWorld 7 1 "token" "image/gif" rfl rfl rfl rfl rfl
  ⟨rfl, ((h.2.2.2.2.1 "image/gif" rfl).1).mpr (by decide),
    ((h.2.2.2.2.1 "image/gif" rfl).2).mpr (by decide)⟩

/-- C5 (counterexample to the claim as stated): the declared content type "IMAGE/PNG" is not
exactly "image/jpeg" or "image/png", and "VIDEO/MP4" is not exactly "video/mp4", yet both
pass validation: `mime.ParseMediaType` lowers them first, and the uploads run to the end and
update the record. -/
theorem declared_type_match_not_exact :
    ("IMAGE/PNG" ≠ "image/jpeg" ∧ "IMAGE/PNG" ≠ "image/png") ∧
    handlerUploadThumbnail sampleConfig
        (declaredRequest strictMimeLib sampleThumbnailRequest "IMAGE/PNG")
        sampleThumbnailEnv emptyWorld =
      { files := ["assets/AAAAAAAAAAAAAAAAAAAAAAAAAAAAAAAAAAAAAAAAAAA=.png"],
        calls := [.GetVideo 7, .UpdateVideo sampleThumbnailVideo,
          .respondWithJSON 200 (some sampleThumbnailVideo)] } ∧
    "VIDEO/MP4" ≠ "video/mp4" ∧
    (handlerUploadVideo sampleConfig
        (declaredRequest strictMimeLib sampleVideoRequest "VIDEO/MP4")
        sampleVideoEnv emptyWorld).calls =
      [.PutObject "tubely" (sampleObjectKey "landscape") "video/mp4",
        .GetVideo 7,
        .UpdateVideo (sampleUpdatedVideo "landscape"),
        .respondWithJSON 204 none] := by
  refine ⟨⟨by decide, by decide⟩, ?_, by decide, ?_⟩ <;> decide

/-! ## Failure handling of the video flow -/

/-- C8: whenever the transform tool exits with failure, the whole invocation of the video flow
makes exactly one observable call, an error response: the blob store is not written and the
record store is not updated.  When the earlier steps succeeded that response is the 500
"Error processing video". -/
theorem transcode_failure_stops_pipeline (cfg : apiConfig) (r : Request) (env : VideoEnv)
    (w : World) (e : String) (leftOutput : Bool) (hf : env.ffmpeg = .failure e leftOutput) :
    (∃ new, (handlerUploadVideo cfg r env w).calls = w.calls ++ new ∧
      (∃ code msg, new = [Call.respondWithError code msg] ∧ 400 ≤ code) ∧
      (∀ bucket key contentType, Call.PutObject bucket key contentType ∉ new) ∧
      (∀ video, Call.UpdateVideo video ∉ new)) ∧
    (∀ videoID userID token name,
      r.videoID = .ok videoID → r.bearerToken = .ok token → r.userID = .ok userID →
      r.formFile = .ok () → r.mediaType = .ok "video/mp4" →
      env.createTemp = .ok name → env.copy = .ok () →
      (handlerUploadVideo cfg r env w).calls =
        w.calls ++ [Call.respondWithError 500 "Error processing video"]) := by
  have key : ∃ code msg, (handlerUploadVideo cfg r env w).calls =
      w.calls ++ [Call.respondWithError code msg] ∧ 400 ≤ code := by
    cases h1 : r.videoID with
    | error _ => exact ⟨400, "Invalid Video ID", by simp [handlerUploadVideo, h1, World.call], by decide⟩
    | ok videoID =>
    cases h2 : r.bearerToken with
    | error _ => exact ⟨401, "Couldn't find JWT", by simp [handlerUploadVideo, h1, h2, World.call], by decide⟩
    | ok token =>
    cases h3 : r.userID with
    | error _ => exact ⟨401, "Couldn't Validate JWT", by simp [handlerUploadVideo, h1, h2, h3, World.call], by decide⟩
    | ok userID =>
    cases h4 : r.formFile with
    | error _ =>
      exact ⟨400, "Unable to parse from file", by simp [handlerUploadVideo, h1, h2, h3, h4, World.call], by decide⟩
    | ok _ =>
    cases h5 : r.mediaType with
    | error _ =>
      exact ⟨400, "Unable to parse Content-Type", by simp [handlerUploadVideo, h1, h2, h3, h4, h5, World.call], by decide⟩
    | ok media_type =>
    cases h6 : videoTypeRejected media_type with
    | true =>
      exact ⟨400, "Wrong media type for video", by simp [handlerUploadVideo, h1, h2, h3, h4, h5, h6, World.call],
        by decide⟩
    | false =>
    cases h7 : env.createTemp with
    | error _ =>
      exact ⟨500, "Error creating file", by simp [handlerUploadVideo, h1, h2, h3, h4, h5, h6, h7, World.call],
        by decide⟩
    | ok name =>
    cases h8 : env.copy with
    | error _ =>
      exact ⟨500, "Error saving file", by
        simp [handlerUploadVideo, h1, h2, h3, h4, h5, h6, h7, videoBody, h8, World.call,
          World.remove], by decide⟩
    | ok _ =>
      exact ⟨500, "Error processing video", by
        simp [handlerUploadVideo, h1, h2, h3, h4, h5, h6, h7, videoBody, h8, hf,
          processVideoForFastStart, World.call, World.remove], by decide⟩
  refine ⟨?_, ?_⟩
  · obtain ⟨code, msg, hcalls, hcode⟩ := key
    exact ⟨[Call.respondWithError code msg], hcalls, ⟨code, msg, rfl, hcode⟩, by simp, by simp⟩
  · intro videoID userID token name h1 h2 h3 h4 h5 h7 h8
    have h6 : videoTypeRejected "video/mp4" = false := by decide
    simp [handlerUploadVideo, h1, h2, h3, h4, h5, h6, h7, videoBody, h8, hf,
      processVideoForFastStart, World.call, World.remove]

/-- Witness of C8: the sample upload with a failing transform tool. -/
theorem transcode_failure_stops_pipeline_witness :
    (∃ new, (handlerUploadVideo sampleConfig sampleVideoRequest transcodeFailureEnv
          emptyWorld).calls = emptyWorld.calls ++ new ∧
      (∃ code msg, new = [Call.respondWithError code msg] ∧ 400 ≤ code) ∧
      (∀ bucket key contentType, Call.PutObject bucket key contentType ∉ new) ∧
      (∀ video, Call.UpdateVideo video ∉ new)) ∧
    (handlerUploadVideo sampleConfig sampleVideoRequest transcodeFailureEnv emptyWorld).calls =
      emptyWorld.calls ++ [Call.respondWithError 500 "Error processing video"] :=
  ⟨(transcode_failure_stops_pipeline sampleConfig sampleVideoRequest transcodeFailureEnv
      emptyWorld "exit status 1" true rfl).1,
    (transcode_failure_stops_pipeline sampleConfig sampleVideoRequest transcodeFailureEnv
      emptyWorld "exit status 1" true rfl).2 7 1 "token" "/tmp/tubely-upload.mp4123"
      rfl rfl rfl rfl rfl rfl rfl⟩

/-- C3 (the code departs from the claim): in the video flow a failing geometry probe, and
likewise a processed file that cannot be opened, is answered with a 500 response, but the
invocation goes on: the object is put, the record is updated and a 204 response follows. -/
theorem handlerUploadVideo_continues_after_failure :
    (handlerUploadVideo sampleConfig sampleVideoRequest probeFailureEnv emptyWorld).calls =
      [.respondWithError 500 "Error getting aspect ratio",
        .PutObject "tubely" (sampleObjectKey "other") "video/mp4",
        .GetVideo 7,
        .UpdateVideo (sampleUpdatedVideo "other"),
        .respondWithJSON 204 none] ∧
    (handlerUploadVideo sampleConfig sampleVideoRequest openFailureEnv emptyWorld).calls =
      [.respondWithError 500 "Error opening processed file",
        .PutObject "tubely" (sampleObjectKey "landscape") "video/mp4",
        .GetVideo 7,
        .UpdateVideo (sampleUpdatedVideo "landscape"),
        .respondWithJSON 204 none] := by
  constructor <;> decide

/-- C2 (the code departs from the claim): the video flow never compares the caller with the
owner.  User 2 uploads a video for record 7, owned by user 1: no error response is sent and
the record is updated with the new `VideoURL`. -/
theorem handlerUploadVideo_ignores_owner :
    foreignVideoRequest.userID = .ok 2 ∧ sampleVideo.UserID = 1 ∧
    (handlerUploadVideo sampleConfig foreignVideoRequest sampleVideoEnv emptyWorld).calls =
      [.PutObject "tubely" (sampleObjectKey "landscape") "video/mp4",
        .GetVideo 7,
        .UpdateVideo (sampleUpdatedVideo "landscape"),
        .respondWithJSON 204 none] := by
  refine ⟨rfl, rfl, ?_⟩
  decide

/-- C7 (the code departs from the claim): after a successful video upload, and after an upload
whose transform tool failed part-way, the staged input is gone but the derived file
`<staged>.processing` is still on local storage; nothing in the flow removes it. -/
theorem handlerUploadVideo_leaves_processed_file :
    (handlerUploadVideo sampleConfig sampleVideoRequest sampleVideoEnv emptyWorld).files =
      ["/tmp/tubely-upload.mp4123.processing"] ∧
    (handlerUploadVideo sampleConfig sampleVideoRequest transcodeFailureEnv emptyWorld).files =
      ["/tmp/tubely-upload.mp4123.processing"] := by
  constructor <;> decide

/-! ## What the two flows do get right -/

/-- The thumbnail flow compares the caller with the owner: a caller who does not own the
record gets the 401 response, and nothing else happens after the record was read. -/
theorem handlerUploadThumbnail_rejects_foreign_caller (cfg : apiConfig) (r : Request)
    (env : ThumbnailEnv) (w : World) (videoID userID : UUID) (token media_type : String)
    (video : Video)
    (h1 : r.videoID = .ok videoID) (h2 : r.bearerToken = .ok token)
    (h3 : r.userID = .ok userID) (h4 : r.formFile = .ok ())
    (h5 : r.mediaType = .ok media_type) (h6 : thumbnailTypeRejected media_type = false)
    (h7 : env.getVideo = .ok video) (h8 : video.UserID ≠ userID) :
    handlerUploadThumbnail cfg r env w =
      { files := w.files,
        calls := w.calls ++
          [.GetVideo videoID, .respondWithError 401 "User does not own the video"] } := by
  simp [handlerUploadThumbnail, h1, h2, h3, h4, h5, h6, h7, h8, World.call]

/-- The thumbnail flow stops when the file cannot be created or the copy fails: the record is
read, one 500 response is sent and the record store is not updated. -/
theorem handlerUploadThumbnail_stops_on_staging_failure (cfg : apiConfig) (r : Request)
    (env : ThumbnailEnv) (w : World) (videoID : UUID) (token media_type : String)
    (video : Video)
    (h1 : r.videoID = .ok videoID) (h2 : r.bearerToken = .ok token)
    (h3 : r.userID = .ok video.UserID) (h4 : r.formFile = .ok ())
    (h5 : r.mediaType = .ok media_type) (h6 : thumbnailTypeRejected media_type = false)
    (h7 : env.getVideo = .ok video)
    (hfail : (∃ e, env.create = .error e) ∨ (∃ e, env.copy = .error e)) :
    ∃ msg, (handlerUploadThumbnail cfg r env w).calls =
      w.calls ++ [.GetVideo videoID, .respondWithError 500 msg] := by
  have hext : ∃ ext, file_extension media_type = some ext := by
    rcases (thumbnailTypeRejected_eq_false media_type).mp h6 with hm | hm
    · exact ⟨"jpeg", by rw [hm]; exact file_extension_accepted.2.2⟩
    · exact ⟨"png", by rw [hm]; exact file_extension_accepted.2.1⟩
  obtain ⟨ext, hext⟩ := hext
  cases hc : env.create with
  | error _ =>
    exact ⟨"Error creating file", by
      simp [handlerUploadThumbnail, h1, h2, h3, h4, h5, h6, h7, thumbnailFileName, hext, hc,
        World.call]⟩
  | ok _ =>
    rcases hfail with ⟨e, he⟩ | ⟨e, he⟩
    · rw [hc] at he; cases he
    · exact ⟨"Error saving file", by
        simp [handlerUploadThumbnail, h1, h2, h3, h4, h5, h6, h7, thumbnailFileName, hext, hc,
          he, World.call]⟩

/-- The deferred `os.Remove(f.Name())` of the video flow: once the temporary file has been
created, it is absent from local storage when the invocation ends, on every path. -/
theorem handlerUploadVideo_removes_staged_file (cfg : apiConfig) (r : Request) (env : VideoEnv)
    (w : World) (videoID userID : UUID) (token name : String)
    (h1 : r.videoID = .ok videoID) (h2 : r.bearerToken = .ok token)
    (h3 : r.userID = .ok userID) (h4 : r.formFile = .ok ())
    (h5 : r.mediaType = .ok "video/mp4") (h6 : env.createTemp = .ok name) :
    name ∉ (handlerUploadVideo cfg r env w).files := by
  have hv : videoTypeRejected "video/mp4" = false := by decide
  simp [handlerUploadVideo, h1, h2, h3, h4, h5, h6, hv, World.remove]

end Tubely
